import Mathlib

/-!
Shallow embedding of the state-operation orchestration controller of the
ServiceExample_PluginState plugin (src/src/types.ts, class PluginStateDemo).

The component's pure logic is modelled as explicit state passing over a
`DemoState` record.  The external PluginState service is a collaborator:
its presence is a `Bool`, its answers are parameters of each operation, and
the calls an operation makes to it are collected in a trace (`List ExtCall`).
Timestamps produced by the clock (`new Date().toISOString()`,
`toLocaleTimeString()`) are threaded as string parameters, and timestamp
parseability (`Date.parse`) is an abstract predicate parameter.
-/

namespace PluginState

/-- Error categories of `ErrorInfo.type` in the source. -/
inductive ErrType where
  | service
  | validation
  | network
  | unknown
deriving DecidableEq

/-- `DemoData.preferences` in the source. -/
structure Preferences where
  autoSave : Bool
  showDebugInfo : Bool
deriving DecidableEq

/-- The unit of persisted application data (`interface DemoData`). -/
structure DemoData where
  userInput : String
  counter : Int
  preferences : Preferences
  timestamp : String
deriving DecidableEq

/-- The error record produced on failure (`interface ErrorInfo`). -/
structure ErrorInfo where
  type : ErrType
  message : String
  details : String
  timestamp : String
  operation : String
  stack : String
deriving DecidableEq

/-- Observable component state (`interface PluginStateDemoState`), restricted
to the fields the orchestration logic reads or writes. -/
structure DemoState where
  demoData : DemoData
  isLoading : Bool
  error : String
  errorInfo : Option ErrorInfo
  isStateConfigured : Bool
  lastSaveTime : Option String
  lastRestoreTime : Option String
  saveCount : Int
  restoreCount : Int
  debugLogs : List String
  showErrorDetails : Bool
deriving DecidableEq

/-- An arbitrary JavaScript failure value as discriminated by `handleError`:
an `Error` instance, a plain string, a structured object (whose `message`
property is modelled as `""` when absent or falsy, together with its
`toString()` rendering and its JSON serialization), or any other value. -/
inductive ErrValue where
  | exn (message : String) (stack : String)
  | str (s : String)
  | obj (message : String) (asString : String) (serialized : String)
  | other
deriving DecidableEq

/-- A call made to the external PluginState service. -/
inductive ExtCall where
  | save (demoData : DemoData) (saveCount : Int) (restoreCount : Int)
  | get
  | clear
deriving DecidableEq

/-- Result of one operation: the new component state and the trace of
external-service calls the operation made. -/
structure OpResult where
  state : DemoState
  calls : List ExtCall
deriving DecidableEq

/-- Does `pat` match `l` at its head? (the inner loop of `String.includes`). -/
def leadMatch : List Char → List Char → Bool
  | [], _ => true
  | _ :: _, [] => false
  | a :: as, b :: bs => a = b && leadMatch as bs

/-- Does `pat` occur anywhere in `l`? -/
def occursIn (pat : List Char) : List Char → Bool
  | [] => leadMatch pat []
  | c :: cs => leadMatch pat (c :: cs) || occursIn pat cs

/-- `s.includes(pat)` of JavaScript (case-sensitive substring test). -/
def containsSub (s pat : String) : Bool := occursIn pat.data s.data

/-- Lowercase hexadecimal digit, as emitted by `JSON.stringify` escapes. -/
def hexDigit (n : Nat) : Char :=
  if n < 10 then Char.ofNat (48 + n) else Char.ofNat (87 + n)

/-- Escape one character the way `JSON.stringify` escapes string contents. -/
def escChar (c : Char) : List Char :=
  if c = '"' then ['\\', '"']
  else if c = '\\' then ['\\', '\\']
  else if c = '\n' then ['\\', 'n']
  else if c = '\r' then ['\\', 'r']
  else if c = '\t' then ['\\', 't']
  else if c.toNat = 8 then ['\\', 'b']
  else if c.toNat = 12 then ['\\', 'f']
  else if c.toNat < 32 then
    ['\\', 'u', '0', '0', hexDigit (c.toNat / 16), hexDigit (c.toNat % 16)]
  else [c]

/-- `JSON.stringify` of a string value. -/
def jsonString (s : String) : List Char :=
  '"' :: (s.data.flatMap escChar ++ ['"'])

/-- `JSON.stringify` of a `DemoData` object, in property insertion order. -/
def jsonDemoData (d : DemoData) : List Char :=
  "\x7b\"userInput\":".data ++ jsonString d.userInput
    ++ ",\"counter\":".data ++ (toString d.counter).data
    ++ ",\"preferences\":\x7b\"autoSave\":".data ++ (toString d.preferences.autoSave).data
    ++ ",\"showDebugInfo\":".data ++ (toString d.preferences.showDebugInfo).data
    ++ "\x7d,\"timestamp\":".data ++ jsonString d.timestamp
    ++ "\x7d".data

/-- `JSON.stringify` of the envelope `\x7bdemoData, saveCount, restoreCount\x7d`
composed by `saveState`. -/
def jsonEnvelope (d : DemoData) (saveCount restoreCount : Int) : List Char :=
  "\x7b\"demoData\":".data ++ jsonDemoData d
    ++ ",\"saveCount\":".data ++ (toString saveCount).data
    ++ ",\"restoreCount\":".data ++ (toString restoreCount).data
    ++ "\x7d".data

/-- `JSON.stringify(stateToSave).length`: the serialized size checked by
`saveState` against the 10240 ceiling. -/
def envelopeSize (d : DemoData) (saveCount restoreCount : Int) : Nat :=
  (jsonEnvelope d saveCount restoreCount).length

/-- The last `n` elements of a list (JavaScript `slice(-n)` for `n > 0`). -/
def takeLast (n : Nat) (l : List String) : List String :=
  l.drop (l.length - n)

/-- One formatted log line of `addDebugLog`. -/
def logEntry (t msg : String) : String := "[" ++ t ++ "] " ++ msg

/-- `addDebugLog`: keep the last 19 entries and append the new one
(`[...prevState.debugLogs.slice(-19), logEntry]`). -/
def addDebugLog (t msg : String) (logs : List String) : List String :=
  takeLast 19 logs ++ [logEntry t msg]

/-- Apply `addDebugLog` to the component state. -/
def pushLog (t msg : String) (s : DemoState) : DemoState :=
  { s with debugLogs := addDebugLog t msg s.debugLogs }

/-- The message extracted from a failure value by `handleError`. -/
def errMessage : ErrValue → String
  | .exn m _ => m
  | .str s => s
  | .obj m ts _ => if m = "" then ts else m
  | .other => "An unexpected error occurred"

/-- The details blob extracted from a failure value by `handleError`
(only structured objects are serialized into it). -/
def errDetails : ErrValue → String
  | .obj _ _ ser => ser
  | _ => ""

/-- The stack trace extracted from a failure value by `handleError`. -/
def errStack : ErrValue → String
  | .exn _ st => st
  | _ => ""

/-- The message-pattern ladder of `handleError`, applied to an `Error`
instance's message (first match wins, case-sensitive `includes`). -/
def classify (message : String) : ErrType :=
  if containsSub message "Service not available" || containsSub message "not configured" then
    ErrType.service
  else if containsSub message "validation" || containsSub message "invalid" then
    ErrType.validation
  else if containsSub message "network" || containsSub message "fetch" then
    ErrType.network
  else
    ErrType.unknown

/-- The category assigned by `handleError`: the ladder runs only inside the
`instanceof Error` branch; every other failure keeps the initial `unknown`. -/
def errType : ErrValue → ErrType
  | .exn m _ => classify m
  | _ => ErrType.unknown

/-- `handleError(error, operation)`: build the `ErrorInfo` record, append a
log entry, surface the message, and clear the busy flag. -/
def handleError (e : ErrValue) (operation nowIso logT : String) (s : DemoState) :
    ErrorInfo × DemoState :=
  let info : ErrorInfo :=
    { type := errType e
      message := errMessage e
      details := errDetails e
      timestamp := nowIso
      operation := operation
      stack := errStack e }
  let s1 := pushLog logT ("ERROR in " ++ operation ++ ": " ++ errMessage e) s
  (info, { s1 with error := errMessage e, errorInfo := some info, isLoading := false })

/-- `clearError`: reset the error surface and log the reset. -/
def clearError (logT : String) (s : DemoState) : DemoState :=
  pushLog logT "Error cleared by user"
    { s with error := "", errorInfo := none, showErrorDetails := false }

/-- Result of `validateDemoData`. -/
structure ValidationResult where
  isValid : Bool
  errors : List String
deriving DecidableEq

/-- `validateDemoData`: the local validator.  `parseOk` stands for
`!isNaN(Date.parse(t))`; the `!data.timestamp` falsiness test is the
empty-string test. -/
def validateDemoData (parseOk : String → Bool) (data : DemoData) : ValidationResult :=
  let errors : List String :=
    (if data.userInput.length > 1000 then
      ["User input exceeds maximum length of 1000 characters"] else [])
    ++ (if data.counter < -1000 ∨ data.counter > 1000 then
      ["Counter value must be between -1000 and 1000"] else [])
    ++ (if data.timestamp = "" ∨ parseOk data.timestamp = false then
      ["Invalid timestamp format"] else [])
  { isValid := errors.isEmpty, errors := errors }

/-- The canonical default `DemoData` used by the constructor and by
`clearState` (empty text, zero counter, both preferences enabled, fresh
timestamp). -/
def defaultDemoData (nowIso : String) : DemoData :=
  { userInput := ""
    counter := 0
    preferences := { autoSave := true, showDebugInfo := true }
    timestamp := nowIso }

/-- The component state built by the constructor. -/
def initState (nowIso : String) : DemoState :=
  { demoData := defaultDemoData nowIso
    isLoading := false
    error := ""
    errorInfo := none
    isStateConfigured := false
    lastSaveTime := none
    lastRestoreTime := none
    saveCount := 0
    restoreCount := 0
    debugLogs := []
    showErrorDetails := false }

/-- `saveState()`.  `svcPresent` is the truthiness of
`services?.pluginState`; `saveResult` is how the external
`saveState(stateToSave)` call settles (`none` = resolves, `some e` =
rejects with `e`); `nowIso`/`nowLocale` are the clock's readings. -/
def saveState (svcPresent : Bool) (saveResult : Option ErrValue)
    (parseOk : String → Bool) (nowIso nowLocale : String) (s : DemoState) : OpResult :=
  let s0 := if s.error != "" || s.errorInfo.isSome then clearError nowLocale s else s
  let s1 := pushLog nowLocale "Starting state save operation..." { s0 with isLoading := true }
  if !svcPresent then
    { state := (handleError
        (ErrValue.exn "PluginState service not available for save operation" "")
        "saveState" nowIso nowLocale s1).2
      calls := [] }
  else
    let validation := validateDemoData parseOk s1.demoData
    if !validation.isValid then
      { state := (handleError
          (ErrValue.exn ("Validation failed: " ++ String.intercalate ", " validation.errors) "")
          "saveState" nowIso nowLocale s1).2
        calls := [] }
    else
      let stateSize := envelopeSize s1.demoData (s1.saveCount + 1) s1.restoreCount
      if stateSize > 10240 then
        { state := (handleError
            (ErrValue.exn ("State size (" ++ toString stateSize
              ++ " bytes) exceeds maximum allowed size (10240 bytes)") "")
            "saveState" nowIso nowLocale s1).2
          calls := [] }
      else
        let s2 := pushLog nowLocale ("Saving state (" ++ toString stateSize ++ " bytes)...") s1
        match saveResult with
        | some e =>
            { state := (handleError e "saveState" nowIso nowLocale s2).2
              calls := [ExtCall.save s1.demoData (s1.saveCount + 1) s1.restoreCount] }
        | none =>
            { state := pushLog nowLocale "State saved successfully"
                { s2 with isLoading := false
                          lastSaveTime := some nowLocale
                          saveCount := s2.saveCount + 1 }
              calls := [ExtCall.save s1.demoData (s1.saveCount + 1) s1.restoreCount] }

/-- The envelope record the external `getState()` may resolve to; each
field defaults when absent (`|| 0`, `|| this.state.demoData`). -/
structure StoredRecord where
  demoData : Option DemoData
  saveCount : Option Int
  restoreCount : Option Int
deriving DecidableEq

/-- `restoreState()`.  `getResult` is how the external `getState()` call
settles: an exception, an absent value, or a stored record. -/
def restoreState (svcPresent : Bool) (getResult : Except ErrValue (Option StoredRecord))
    (nowIso nowLocale : String) (s : DemoState) : OpResult :=
  let s0 := if s.error != "" || s.errorInfo.isSome then clearError nowLocale s else s
  let s1 := pushLog nowLocale "Starting state restore operation..." { s0 with isLoading := true }
  if !svcPresent then
    { state := (handleError
        (ErrValue.exn "PluginState service not available for restore operation" "")
        "restoreState" nowIso nowLocale s1).2
      calls := [] }
  else
    match getResult with
    | Except.error e =>
        { state := (handleError e "restoreState" nowIso nowLocale s1).2
          calls := [ExtCall.get] }
    | Except.ok none =>
        { state := pushLog nowLocale "No saved state found" { s1 with isLoading := false }
          calls := [ExtCall.get] }
    | Except.ok (some r) =>
        { state := pushLog nowLocale "State restored successfully"
            { s1 with demoData := r.demoData.getD s1.demoData
                      saveCount := r.saveCount.getD 0
                      restoreCount := r.restoreCount.getD 0 + 1
                      lastRestoreTime := some nowLocale
                      isLoading := false }
          calls := [ExtCall.get] }

/-- `clearState()`.  `clearResult` is how the external `clearState()` call
settles (`none` = resolves). -/
def clearState (svcPresent : Bool) (clearResult : Option ErrValue)
    (nowIso nowLocale : String) (s : DemoState) : OpResult :=
  let s0 := clearError nowLocale s
  let s1 := pushLog nowLocale "Starting state clear operation..." { s0 with isLoading := true }
  if !svcPresent then
    { state := (handleError
        (ErrValue.exn "PluginState service not available for clear operation" "")
        "clearState" nowIso nowLocale s1).2
      calls := [] }
  else
    match clearResult with
    | some e =>
        { state := (handleError e "clearState" nowIso nowLocale s1).2
          calls := [ExtCall.clear] }
    | none =>
        { state := pushLog nowLocale "State cleared successfully"
            { s1 with demoData := defaultDemoData nowIso
                      saveCount := 0
                      restoreCount := 0
                      lastSaveTime := none
                      lastRestoreTime := none
                      isLoading := false }
          calls := [ExtCall.clear] }

/-- State of the debounced auto-save scheduler: the fire time of the pending
timer, if any, and the times at which the save trigger has fired. -/
structure Sched where
  pending : Option Nat
  saves : List Nat
deriving DecidableEq

/-- `debouncedAutoSave` armed at time `t`: cancel any pending trigger
(`clearTimeout`) and schedule a single new one 1000 time-units later. -/
def debouncedAutoSave (t : Nat) (s : Sched) : Sched :=
  { s with pending := some (t + 1000) }

/-- The runtime delivering, at time `t`, a timer whose fire time is due. -/
def fireDue (t : Nat) (s : Sched) : Sched :=
  match s.pending with
  | some ft => if ft ≤ t then { pending := none, saves := s.saves ++ [ft] } else s
  | none => s

/-- `componentWillUnmount`: release the pending auto-save timer. -/
def componentWillUnmount (s : Sched) : Sched :=
  { s with pending := none }

/-- Let time run to the end: deliver the remaining pending timer, if any. -/
def flushSched (s : Sched) : Sched :=
  match s.pending with
  | some ft => { pending := none, saves := s.saves ++ [ft] }
  | none => s

/-- Run a sequence of mutation times through the scheduler: at each mutation
time, first deliver any timer already due, then (re)arm; afterwards let time
run out. -/
def runAutoSave (arms : List Nat) : Sched :=
  flushSched (arms.foldl (fun s t => debouncedAutoSave t (fireDue t s)) ⟨none, []⟩)

/-- A timestamp-parsing oracle accepting everything (a parseable input). -/
def allParse : String → Bool := fun _ => true

/-- A parseable timestamp long enough to push the envelope over 10240. -/
def longTs : String := String.mk (List.replicate 10300 'a')

/-- A component state whose save envelope exceeds the size ceiling. -/
def bigState : DemoState := initState longTs

/-- A `DemoData` violating all three validation rules at once. -/
def badData : DemoData :=
  { userInput := String.mk (List.replicate 1001 'a')
    counter := 2000
    preferences := { autoSave := true, showDebugInfo := true }
    timestamp := "" }

/-- A full operation log of 20 entries. -/
def logs20 : List String := List.replicate 20 "x"

theorem leadMatch_append (pat rest : List Char) : leadMatch pat (pat ++ rest) = true := by
  induction pat with
  | nil => rfl
  | cons a as ih => simp [leadMatch, ih]

theorem occursIn_of_leadMatch (pat l : List Char) (h : leadMatch pat l = true) :
    occursIn pat l = true := by
  cases l with
  | nil => simpa [occursIn] using h
  | cons c cs => simp [occursIn, h]

theorem occursIn_cons (pat : List Char) (c : Char) (cs : List Char)
    (h : occursIn pat cs = true) : occursIn pat (c :: cs) = true := by
  simp [occursIn, h]

theorem occursIn_append (pre pat rest : List Char) :
    occursIn pat (pre ++ (pat ++ rest)) = true := by
  induction pre with
  | nil => exact occursIn_of_leadMatch _ _ (leadMatch_append pat rest)
  | cons c cs ih => exact occursIn_cons _ _ _ ih

theorem containsSub_middle (a pat b : String) :
    containsSub (a ++ pat ++ b) pat = true := by
  show occursIn pat.data ((a ++ pat ++ b).data) = true
  have : (a ++ pat ++ b).data = a.data ++ (pat.data ++ b.data) := by
    simp [String.data_append, List.append_assoc]
  rw [this]
  exact occursIn_append a.data pat.data b.data

theorem addDebugLog_len (t m : String) (l : List String) :
    (addDebugLog t m l).length ≤ 20 := by
  simp only [addDebugLog, takeLast, List.length_append, List.length_drop,
    List.length_cons, List.length_nil]
  omega

theorem pushLog_logs_le (t m : String) (s : DemoState) :
    (pushLog t m s).debugLogs.length ≤ 20 :=
  addDebugLog_len t m s.debugLogs

theorem handleError_logs_le (e : ErrValue) (op ni lt : String) (s : DemoState) :
    ((handleError e op ni lt s).2).debugLogs.length ≤ 20 :=
  addDebugLog_len lt ("ERROR in " ++ op ++ ": " ++ errMessage e) s.debugLogs

set_option maxHeartbeats 1000000 in
theorem saveState_logs_le (svcPresent : Bool) (saveResult : Option ErrValue)
    (parseOk : String → Bool) (nowIso nowLocale : String) (s : DemoState) :
    (saveState svcPresent saveResult parseOk nowIso nowLocale s).state.debugLogs.length ≤ 20 := by
  cases svcPresent <;> cases saveResult <;>
    by_cases hc : (s.error != "" || s.errorInfo.isSome) = true <;>
      simp only [saveState, hc, if_true, if_false, Bool.false_eq_true, ite_true, ite_false] <;>
      (repeat' split) <;>
      exact addDebugLog_len _ _ _

set_option maxHeartbeats 1000000 in
theorem restoreState_logs_le (svcPresent : Bool) (getResult : Except ErrValue (Option StoredRecord))
    (nowIso nowLocale : String) (s : DemoState) :
    (restoreState svcPresent getResult nowIso nowLocale s).state.debugLogs.length ≤ 20 := by
  cases svcPresent <;> rcases getResult with e | (_ | r) <;>
    by_cases hc : (s.error != "" || s.errorInfo.isSome) = true <;>
      simp only [restoreState, hc, if_true, if_false, Bool.false_eq_true, ite_true, ite_false] <;>
      (repeat' split) <;>
      exact addDebugLog_len _ _ _

set_option maxHeartbeats 1000000 in
theorem clearState_logs_le (svcPresent : Bool) (clearResult : Option ErrValue)
    (nowIso nowLocale : String) (s : DemoState) :
    (clearState svcPresent clearResult nowIso nowLocale s).state.debugLogs.length ≤ 20 := by
  cases svcPresent <;> cases clearResult <;>
    simp only [clearState, if_true, if_false, Bool.false_eq_true, ite_true, ite_false] <;>
    (repeat' split) <;>
    exact addDebugLog_len _ _ _

/-- Claim C7: the bounded operation log never holds more than 20 entries
after any append; appending to a log already holding 20 evicts the oldest
entry first; and the bound holds after every operation that writes a log
entry (save, restore, clear all end in a log write on every path). -/
theorem addDebugLog_bounded_fifo (t msg : String) (logs : List String) :
    (addDebugLog t msg logs).length ≤ 20
    ∧ (logs.length = 20 → addDebugLog t msg logs = logs.tail ++ [logEntry t msg])
    ∧ (∀ svcPresent saveResult parseOk nowIso nowLocale s,
        (saveState svcPresent saveResult parseOk nowIso nowLocale s).state.debugLogs.length ≤ 20)
    ∧ (∀ svcPresent getResult nowIso nowLocale s,
        (restoreState svcPresent getResult nowIso nowLocale s).state.debugLogs.length ≤ 20)
    ∧ (∀ svcPresent clearResult nowIso nowLocale s,
        (clearState svcPresent clearResult nowIso nowLocale s).state.debugLogs.length ≤ 20) := by
  refine ⟨addDebugLog_len t msg logs, ?_, saveState_logs_le, restoreState_logs_le,
    clearState_logs_le⟩
  intro h
  simp [addDebugLog, takeLast, h, List.drop_one]

/-- Claim C7 witness: appending to a 20-entry log keeps 20 entries and
evicts the oldest. -/
theorem addDebugLog_bounded_fifo_witness :
    (addDebugLog "t" "m" logs20).length ≤ 20
    ∧ addDebugLog "t" "m" logs20 = logs20.tail ++ [logEntry "t" "m"] :=
  ⟨(addDebugLog_bounded_fifo "t" "m" logs20).1,
   (addDebugLog_bounded_fifo "t" "m" logs20).2.1 (by decide)⟩

/-- Claim C8: arming the debounced auto-save scheduler is last-write-wins:
arming always cancels the pending trigger and schedules a single new one
1000 time-units later; mutations at t=0 and t=500 produce exactly one save
trigger, fired at t=1500; and teardown releases the pending timer. -/
theorem debouncedAutoSave_last_write_wins :
    (∀ t s, (debouncedAutoSave t s).pending = some (t + 1000))
    ∧ runAutoSave [0, 500] = { pending := none, saves := [1500] }
    ∧ (runAutoSave [0, 500]).saves.length = 1
    ∧ (∀ s, (componentWillUnmount s).pending = none) :=
  ⟨fun _ _ => rfl, by decide, by decide, fun _ => rfl⟩

/-- Claim C9: the error classifier is first-match-wins on the failure's
message text — service patterns first, then validation, then network, else
unknown — the produced record always carries the operation name in
progress, and the busy flag is cleared as a side effect. -/
theorem handleError_classification (e : ErrValue) (msg stack op nowIso logT : String)
    (s : DemoState) :
    (handleError e op nowIso logT s).1.operation = op
    ∧ (handleError e op nowIso logT s).1.timestamp = nowIso
    ∧ (handleError e op nowIso logT s).2.isLoading = false
    ∧ ((containsSub msg "Service not available" || containsSub msg "not configured") = true →
        (handleError (ErrValue.exn msg stack) op nowIso logT s).1.type = ErrType.service)
    ∧ ((containsSub msg "Service not available" || containsSub msg "not configured") = false →
        (containsSub msg "validation" || containsSub msg "invalid") = true →
        (handleError (ErrValue.exn msg stack) op nowIso logT s).1.type = ErrType.validation)
    ∧ ((containsSub msg "Service not available" || containsSub msg "not configured") = false →
        (containsSub msg "validation" || containsSub msg "invalid") = false →
        (containsSub msg "network" || containsSub msg "fetch") = true →
        (handleError (ErrValue.exn msg stack) op nowIso logT s).1.type = ErrType.network)
    ∧ ((containsSub msg "Service not available" || containsSub msg "not configured") = false →
        (containsSub msg "validation" || containsSub msg "invalid") = false →
        (containsSub msg "network" || containsSub msg "fetch") = false →
        (handleError (ErrValue.exn msg stack) op nowIso logT s).1.type = ErrType.unknown) := by
  refine ⟨rfl, rfl, rfl, ?_, ?_, ?_, ?_⟩ <;> intros <;>
    simp_all [handleError, errType, classify]

/-- Claim C9 witness: concrete classifications, including a message holding
both a validation and a network pattern that the first match sends to
validation, and the operation name carried on the record. -/
theorem handleError_classification_witness :
    (handleError (ErrValue.exn "Service not available" "") "saveState" "iso" "t"
        (initState "iso")).1.type = ErrType.service
    ∧ (handleError (ErrValue.exn "invalid network data" "") "op" "iso" "t"
        (initState "iso")).1.type = ErrType.validation
    ∧ (handleError (ErrValue.exn "fetch failed" "") "op" "iso" "t"
        (initState "iso")).1.type = ErrType.network
    ∧ (handleError (ErrValue.exn "boom" "") "op" "iso" "t"
        (initState "iso")).1.type = ErrType.unknown
    ∧ (handleError (ErrValue.exn "boom" "") "op" "iso" "t"
        (initState "iso")).1.operation = "op" :=
  ⟨(handleError_classification (ErrValue.exn "Service not available" "")
      "Service not available" "" "saveState" "iso" "t" (initState "iso")).2.2.2.1 (by decide),
   (handleError_classification (ErrValue.exn "invalid network data" "")
      "invalid network data" "" "op" "iso" "t" (initState "iso")).2.2.2.2.1
      (by decide) (by decide),
   (handleError_classification (ErrValue.exn "fetch failed" "")
      "fetch failed" "" "op" "iso" "t" (initState "iso")).2.2.2.2.2.1
      (by decide) (by decide) (by decide),
   (handleError_classification (ErrValue.exn "boom" "")
      "boom" "" "op" "iso" "t" (initState "iso")).2.2.2.2.2.2
      (by decide) (by decide) (by decide),
   (handleError_classification (ErrValue.exn "boom" "")
      "boom" "" "op" "iso" "t" (initState "iso")).1⟩

/-- Claim C10: a failure value that is not an exception object is always
categorized `unknown`, whatever its message says, and a plain-string
failure leaves the details field empty. -/
theorem handleError_nonexception_unknown (m msgF asStr ser op nowIso logT : String)
    (s : DemoState) :
    (handleError (ErrValue.str m) op nowIso logT s).1.type = ErrType.unknown
    ∧ (handleError (ErrValue.str m) op nowIso logT s).1.details = ""
    ∧ (handleError (ErrValue.str m) op nowIso logT s).1.message = m
    ∧ (handleError (ErrValue.obj msgF asStr ser) op nowIso logT s).1.type = ErrType.unknown
    ∧ (handleError ErrValue.other op nowIso logT s).1.type = ErrType.unknown :=
  ⟨rfl, rfl, rfl, rfl, rfl⟩

/-- Claim C3: the local validator is a pure function checking all three
rules independently without short-circuiting — overlong text is reported
with the length violation, an out-of-range counter is reported, an
unparseable (or empty) timestamp is reported — and it returns valid exactly
when the violation list is empty. -/
theorem validateDemoData_rules (parseOk : String → Bool) (d : DemoData) :
    ((validateDemoData parseOk d).isValid = true ↔ (validateDemoData parseOk d).errors = [])
    ∧ (d.userInput.length > 1000 →
        (validateDemoData parseOk d).isValid = false
        ∧ "User input exceeds maximum length of 1000 characters"
            ∈ (validateDemoData parseOk d).errors)
    ∧ ((d.counter < -1000 ∨ d.counter > 1000) →
        (validateDemoData parseOk d).isValid = false
        ∧ "Counter value must be between -1000 and 1000"
            ∈ (validateDemoData parseOk d).errors)
    ∧ ((d.timestamp = "" ∨ parseOk d.timestamp = false) →
        (validateDemoData parseOk d).isValid = false
        ∧ "Invalid timestamp format" ∈ (validateDemoData parseOk d).errors) := by
  simp only [validateDemoData]
  split_ifs with h1 h2 h3 <;> simp_all

set_option maxRecDepth 100000 in
/-- Claim C3 witness: a record violating all three rules at once is
invalid and every violation is listed. -/
theorem validateDemoData_rules_witness :
    ((validateDemoData allParse badData).isValid = false
      ∧ "User input exceeds maximum length of 1000 characters"
          ∈ (validateDemoData allParse badData).errors)
    ∧ ((validateDemoData allParse badData).isValid = false
      ∧ "Counter value must be between -1000 and 1000"
          ∈ (validateDemoData allParse badData).errors)
    ∧ ((validateDemoData allParse badData).isValid = false
      ∧ "Invalid timestamp format" ∈ (validateDemoData allParse badData).errors) :=
  ⟨(validateDemoData_rules allParse badData).2.1 (by decide),
   (validateDemoData_rules allParse badData).2.2.1 (by decide),
   (validateDemoData_rules allParse badData).2.2.2 (by decide)⟩

/-- Claim C4: restore with a returned record adopts the record's demoData
(falling back to the in-memory value when absent), its save counter
(default 0), sets the restore counter to the record's (default 0) plus
one — a stored restore count of 3 yields 4 — and updates the display
restore timestamp. -/
theorem restoreState_adopts_record (r : StoredRecord) (nowIso nowLocale : String)
    (s : DemoState) :
    (restoreState true (Except.ok (some r)) nowIso nowLocale s).state.demoData
        = r.demoData.getD s.demoData
    ∧ (restoreState true (Except.ok (some r)) nowIso nowLocale s).state.saveCount
        = r.saveCount.getD 0
    ∧ (restoreState true (Except.ok (some r)) nowIso nowLocale s).state.restoreCount
        = r.restoreCount.getD 0 + 1
    ∧ (restoreState true (Except.ok (some r)) nowIso nowLocale s).state.lastRestoreTime
        = some nowLocale
    ∧ (r.restoreCount = some 3 →
        (restoreState true (Except.ok (some r)) nowIso nowLocale s).state.restoreCount = 4) := by
  by_cases hc : (s.error != "" || s.errorInfo.isSome) = true <;>
    simp [restoreState, hc, clearError, pushLog] <;>
    intro h <;> simp [h]

/-- Claim C4 witness: restoring a stored record whose restore count is 3
yields a local restore counter of 4. -/
theorem restoreState_adopts_record_witness :
    (restoreState true (Except.ok (some ⟨none, none, some 3⟩)) "iso" "t"
        (initState "iso")).state.restoreCount = 4 :=
  (restoreState_adopts_record ⟨none, none, some 3⟩ "iso" "t" (initState "iso")).2.2.2.2 rfl

/-- Claim C5: restore with an absent stored value leaves the in-memory
DemoData, both counters and both display timestamps unchanged, raises and
displays no error, and logs the "No saved state found" entry. -/
theorem restoreState_absent_noop (nowIso nowLocale : String) (s : DemoState) :
    (restoreState true (Except.ok none) nowIso nowLocale s).state.demoData = s.demoData
    ∧ (restoreState true (Except.ok none) nowIso nowLocale s).state.saveCount = s.saveCount
    ∧ (restoreState true (Except.ok none) nowIso nowLocale s).state.restoreCount = s.restoreCount
    ∧ (restoreState true (Except.ok none) nowIso nowLocale s).state.lastSaveTime = s.lastSaveTime
    ∧ (restoreState true (Except.ok none) nowIso nowLocale s).state.lastRestoreTime
        = s.lastRestoreTime
    ∧ (restoreState true (Except.ok none) nowIso nowLocale s).state.error = ""
    ∧ (restoreState true (Except.ok none) nowIso nowLocale s).state.errorInfo = none
    ∧ (restoreState true (Except.ok none) nowIso nowLocale s).state.debugLogs.getLast?
        = some (logEntry nowLocale "No saved state found") := by
  by_cases hc : (s.error != "" || s.errorInfo.isSome) = true <;>
    simp_all [restoreState, clearError, pushLog, addDebugLog, List.getLast?_concat]

/-- Claim C6: clear, when the external clear call succeeds, resets
DemoData to its canonical default (empty text, zero counter, both
preference flags enabled, fresh timestamp), resets both counters to 0 and
both display timestamps to null, regardless of the prior state. -/
theorem clearState_resets (nowIso nowLocale : String) (s : DemoState) :
    (clearState true none nowIso nowLocale s).state.demoData = defaultDemoData nowIso
    ∧ (clearState true none nowIso nowLocale s).state.demoData.userInput = ""
    ∧ (clearState true none nowIso nowLocale s).state.demoData.counter = 0
    ∧ (clearState true none nowIso nowLocale s).state.demoData.preferences.autoSave = true
    ∧ (clearState true none nowIso nowLocale s).state.demoData.preferences.showDebugInfo = true
    ∧ (clearState true none nowIso nowLocale s).state.demoData.timestamp = nowIso
    ∧ (clearState true none nowIso nowLocale s).state.saveCount = 0
    ∧ (clearState true none nowIso nowLocale s).state.restoreCount = 0
    ∧ (clearState true none nowIso nowLocale s).state.lastSaveTime = none
    ∧ (clearState true none nowIso nowLocale s).state.lastRestoreTime = none
    ∧ (clearState true none nowIso nowLocale s).calls = [ExtCall.clear] :=
  ⟨rfl, rfl, rfl, rfl, rfl, rfl, rfl, rfl, rfl, rfl, rfl⟩

/-- Claim C1 (code check): saving while the external service reference is
absent never calls the external service, but the produced error record is
categorized `unknown`, not `service`: the thrown message "PluginState
service not available for save operation" does not contain the
classifier's case-sensitive pattern "Service not available" (nor "not
configured"). -/
theorem saveState_absent_service_categorized_unknown :
    (∀ saveResult parseOk nowIso nowLocale s,
        (saveState false saveResult parseOk nowIso nowLocale s).calls = [])
    ∧ (saveState false none allParse "iso" "t" (initState "iso")).state.error
        = "PluginState service not available for save operation"
    ∧ (saveState false none allParse "iso" "t" (initState "iso")).state.errorInfo.map
        ErrorInfo.type = some ErrType.unknown
    ∧ containsSub "PluginState service not available for save operation"
        "Service not available" = false
    ∧ containsSub "PluginState service not available for save operation"
        "not configured" = false := by
  refine ⟨?_, by decide, by decide, by decide, by decide⟩
  intro saveResult parseOk nowIso nowLocale s
  by_cases hc : (s.error != "" || s.errorInfo.isSome) = true <;>
    simp [saveState, hc]

/-- Claim C2: a save whose composed envelope serializes to more than 10240
units fails before the external save call is made — no external call
appears in the trace — the surfaced message carries the computed size, and
the in-memory DemoData, the local save counter and the last-save timestamp
are unchanged. -/
theorem saveState_size_exceeded (saveResult : Option ErrValue) (parseOk : String → Bool)
    (nowIso nowLocale : String) (s : DemoState)
    (hval : (validateDemoData parseOk s.demoData).isValid = true)
    (hsize : envelopeSize s.demoData (s.saveCount + 1) s.restoreCount > 10240) :
    (saveState true saveResult parseOk nowIso nowLocale s).calls = []
    ∧ (saveState true saveResult parseOk nowIso nowLocale s).state.error
        = "State size (" ++ toString (envelopeSize s.demoData (s.saveCount + 1) s.restoreCount)
          ++ " bytes) exceeds maximum allowed size (10240 bytes)"
    ∧ containsSub (saveState true saveResult parseOk nowIso nowLocale s).state.error
        (toString (envelopeSize s.demoData (s.saveCount + 1) s.restoreCount)) = true
    ∧ (saveState true saveResult parseOk nowIso nowLocale s).state.demoData = s.demoData
    ∧ (saveState true saveResult parseOk nowIso nowLocale s).state.saveCount = s.saveCount
    ∧ (saveState true saveResult parseOk nowIso nowLocale s).state.lastSaveTime
        = s.lastSaveTime := by
  have hmid := containsSub_middle "State size ("
    (toString (envelopeSize s.demoData (s.saveCount + 1) s.restoreCount))
    " bytes) exceeds maximum allowed size (10240 bytes)"
  by_cases hc : (s.error != "" || s.errorInfo.isSome) = true <;>
    simp [saveState, hc, hval, hsize, clearError, pushLog, handleError, errMessage, hmid]

theorem escChar_a : escChar 'a' = ['a'] := rfl

theorem flatMap_escChar_replicate (n : Nat) :
    (List.replicate n 'a').flatMap escChar = List.replicate n 'a' := by
  induction n with
  | zero => rfl
  | succ n ih => simp [List.replicate_succ, ih, escChar_a]

theorem longTs_data : longTs.data = List.replicate 10300 'a' := rfl

theorem envelopeSize_bigState :
    envelopeSize bigState.demoData (bigState.saveCount + 1) bigState.restoreCount = 10440 := by
  show envelopeSize (defaultDemoData longTs) (0 + 1) 0 = 10440
  simp only [envelopeSize, jsonEnvelope, jsonDemoData, jsonString, defaultDemoData,
    longTs_data, flatMap_escChar_replicate]
  simp only [List.length_append, List.length_cons, List.length_replicate, List.length_nil]
  decide

/-- Claim C2 witness: a concrete valid state whose serialized envelope
exceeds 10240 units makes no external call and surfaces the size-exceeded
message, leaving the save counter and last-save timestamp unchanged. -/
theorem saveState_size_exceeded_witness :
    (saveState true none allParse "iso" "t" bigState).calls = []
    ∧ (saveState true none allParse "iso" "t" bigState).state.error
        = "State size ("
          ++ toString (envelopeSize bigState.demoData (bigState.saveCount + 1)
              bigState.restoreCount)
          ++ " bytes) exceeds maximum allowed size (10240 bytes)"
    ∧ containsSub (saveState true none allParse "iso" "t" bigState).state.error
        (toString (envelopeSize bigState.demoData (bigState.saveCount + 1)
          bigState.restoreCount)) = true
    ∧ (saveState true none allParse "iso" "t" bigState).state.demoData = bigState.demoData
    ∧ (saveState true none allParse "iso" "t" bigState).state.saveCount = bigState.saveCount
    ∧ (saveState true none allParse "iso" "t" bigState).state.lastSaveTime
        = bigState.lastSaveTime :=
  saveState_size_exceeded none allParse "iso" "t" bigState (by decide)
    (by rw [envelopeSize_bigState]; norm_num)

end PluginState
